import Mathlib

/-!
# Verification of the anti-detection browser-automation core

Shallow embedding of the core components of the `clawd-ORACLE` repository:

* `ProxyRotator`, `AntiDetectionSession`, `AntiDetectionPool`
  (`oracle/oracle/core/camofox_anti_detection.py`),
* `FingerprintManager` (`oracle/oracle/core/fingerprint_manager.py`),
* `CamofoxClient` (`oracle/oracle/core/camofox_client.py`),

followed by theorems settling the specification claims about them.

Conventions of the embedding:
* Python dicts are insertion-ordered association lists with unique keys
  (`dictGet` / `dictSet` / `dictErase`).
* Python exceptions are modelled by `Except PyErr`; a function that cannot
  raise returns its value directly.
* The global `random` module is modelled by an explicit oracle `Rng`
  (a stream of naturals); `random.choice(seq)` consumes one draw `n` and
  picks `seq[n % len(seq)]`, so every element of `seq` is reachable.
* Wall-clock time (`datetime.now()`) is an explicit `Nat` parameter
  (seconds); `timedelta.total_seconds()` is ordinary subtraction.
* Remote HTTP traffic is modelled by explicit outcome oracles
  (one outcome per attempt); `time.sleep` is modelled by accumulating the
  requested sleep amounts (in `ℚ`, since the backoff base is a float).
-/

/-- Python exceptions raised by the embedded code. -/
inductive PyErr where
  /-- `ValueError(msg)` — session state-machine violations. -/
  | valueError (msg : String)
  /-- `IndexError` — list subscript out of range. -/
  | indexError
  /-- `KeyError` — dict subscript on an absent key. -/
  | keyError
  /-- `AttributeError` — attribute access on an object lacking it. -/
  | attributeError
  /-- `CamofoxError("Failed after {max_retries} retries: …")`. -/
  | camofoxRetriesExhausted
  /-- `CamofoxError` carrying a non-success HTTP status. -/
  | camofoxHttp (status : Nat)
  /-- `CamofoxError("No tabId in response: …")`. -/
  | camofoxNoTabId
deriving DecidableEq, Repr

/-- Python dict lookup `d.get(k)` on an insertion-ordered association list. -/
def dictGet {α β : Type} [DecidableEq α] (d : List (α × β)) (k : α) : Option β :=
  match d with
  | [] => none
  | (a, b) :: rest => if a = k then some b else dictGet rest k

/-- Python dict assignment `d[k] = v`: overwrite in place if the key is
present, append otherwise. -/
def dictSet {α β : Type} [DecidableEq α] (d : List (α × β)) (k : α) (v : β) :
    List (α × β) :=
  match d with
  | [] => [(k, v)]
  | (a, b) :: rest => if a = k then (a, v) :: rest else (a, b) :: dictSet rest k v

/-- Python dict deletion `del d[k]` (on a dict, whose keys are unique). -/
def dictErase {α β : Type} [DecidableEq α] (d : List (α × β)) (k : α) :
    List (α × β) :=
  d.filter (fun p => p.1 ≠ k)

/-- Oracle for the global `random` module: a stream of naturals. -/
abbrev Rng := List Nat

/-- Draw one value from the oracle (an exhausted oracle keeps yielding 0). -/
def rngNext (g : Rng) : Nat × Rng :=
  match g with
  | [] => (0, [])
  | n :: rest => (n, rest)

/-- `random.choice(l)`: one draw `n` selects `l[n % len(l)]`.  The default is
only ever used for `l = []`, on which the Python original would raise; all
call sites in the source pass non-empty lists. -/
def randChoice {α : Type} (l : List α) (default : α) (g : Rng) : α × Rng :=
  let r := rngNext g
  (l.getD (r.1 % l.length) default, r.2)

/-- `random.randint(lo, hi)` (both bounds inclusive). -/
def randInt (lo hi : Nat) (g : Rng) : Nat × Rng :=
  let r := rngNext g
  (lo + r.1 % (hi - lo + 1), r.2)

/-- Python string truthiness for `Optional[str]` fields: `None` and `""` are
falsy. -/
def pyTruthy (x : Option String) : Option String :=
  match x with
  | none => none
  | some s => if s.isEmpty then none else some s

/-!
## ProxyRotator (`camofox_anti_detection.py`, lines 17–78)
-/

/-- State of a `ProxyRotator` instance. -/
structure ProxyRotator where
  proxies : List String
  current_index : Nat
  usage_count : List (String × Nat)
deriving DecidableEq, Repr

/-- `ProxyRotator.__init__(proxy_list)`:
`self.usage_count = {p: 0 for p in self.proxies}`. -/
def ProxyRotator.init (proxy_list : List String) : ProxyRotator :=
  { proxies := proxy_list
    current_index := 0
    usage_count := proxy_list.foldl (fun d p => dictSet d p 0) [] }

/-- `ProxyRotator.get_next_proxy()`: round robin.  Returns
`self.proxies[self.current_index]` (which raises `IndexError` when the cursor
is out of range), advances the cursor modulo the pool length, and bumps the
returned proxy's usage counter. -/
def ProxyRotator.get_next_proxy (r : ProxyRotator) :
    Except PyErr (Option String × ProxyRotator) :=
  if r.proxies.isEmpty then .ok (none, r)
  else
    match r.proxies.get? r.current_index with
    | none => .error .indexError
    | some proxy =>
      match dictGet r.usage_count proxy with
      | none => .error .keyError
      | some c =>
        .ok (some proxy,
          { r with
            current_index := (r.current_index + 1) % r.proxies.length
            usage_count := dictSet r.usage_count proxy (c + 1) })

/-- `ProxyRotator.get_least_used_proxy()`: linear scan for the minimum
counter (`min` with first-occurrence tie breaking), bumping the winner. -/
def ProxyRotator.get_least_used_proxy (r : ProxyRotator) :
    Option String × ProxyRotator :=
  match r.proxies with
  | [] => (none, r)
  | p0 :: rest =>
    let winner := rest.foldl
      (fun best p =>
        if ((dictGet r.usage_count p).getD 0) < ((dictGet r.usage_count best).getD 0)
        then p else best) p0
    (some winner,
      { r with
        usage_count :=
          dictSet r.usage_count winner (((dictGet r.usage_count winner).getD 0) + 1) })

/-- `ProxyRotator.add_proxy(proxy)`: append if absent, seed its counter. -/
def ProxyRotator.add_proxy (r : ProxyRotator) (proxy : String) : ProxyRotator :=
  if proxy ∈ r.proxies then r
  else
    { r with
      proxies := r.proxies ++ [proxy]
      usage_count := dictSet r.usage_count proxy 0 }

/-- `ProxyRotator.remove_proxy(proxy)`: `list.remove` (first occurrence)
followed by `del self.usage_count[proxy]` (which raises `KeyError` when the
counter entry is somehow absent).  The round-robin cursor is left untouched. -/
def ProxyRotator.remove_proxy (r : ProxyRotator) (proxy : String) :
    Except PyErr ProxyRotator :=
  if proxy ∈ r.proxies then
    if (dictGet r.usage_count proxy).isSome then
      .ok { r with
            proxies := r.proxies.erase proxy
            usage_count := dictErase r.usage_count proxy }
    else .error .keyError
  else .ok r

/-- Iterate `get_next_proxy` a given number of times, propagating errors. -/
def getNextN (r : ProxyRotator) : Nat → Except PyErr ProxyRotator
  | 0 => .ok r
  | n + 1 =>
    match r.get_next_proxy with
    | .error e => .error e
    | .ok pr => getNextN pr.2 n

/-- A reachable rotator state of the C6 scenario: three proxies, two
round-robin selections, then removal of `"a"`. -/
def c6_state : Except PyErr ProxyRotator :=
  match getNextN (ProxyRotator.init ["a", "b", "c"]) 2 with
  | .error e => .error e
  | .ok r => r.remove_proxy "a"

/-- Claim C6: `get_next_proxy` is claimed total over every sequence of
`add_proxy`, `remove_proxy` and selection calls — returning an element of a
non-empty list and never raising.  The code violates this: after two
selections over `["a", "b", "c"]` the cursor is 2; removing `"a"` shrinks the
list to `["b", "c"]` without adjusting the cursor, so the next selection
evaluates `self.proxies[2]` and raises `IndexError` although the list is
non-empty. -/
theorem c6_stale_cursor_raises_index_error :
    c6_state = .ok ⟨["b", "c"], 2, [("b", 1), ("c", 0)]⟩ ∧
    (ProxyRotator.mk ["b", "c"] 2 [("b", 1), ("c", 0)]).proxies ≠ [] ∧
    (ProxyRotator.mk ["b", "c"] 2 [("b", 1), ("c", 0)]).get_next_proxy
      = .error .indexError := by
  refine ⟨rfl, by decide, rfl⟩

/-!
## Round-robin fairness (C7)

Under the no-duplicates discipline the rotator itself enforces (`add_proxy`
refuses duplicates and the spec treats the pool as a set), the usage-count
dict of a rotator over proxies `l` is `l.zip c` for a vector of counters `c`.
-/

/-- Bump every counter at position `≥ i` by one. -/
def bumpFrom : List Nat → Nat → List Nat
  | [], _ => []
  | x :: c, 0 => (x + 1) :: bumpFrom c 0
  | x :: c, i + 1 => x :: bumpFrom c i

lemma bumpFrom_zero (c : List Nat) : bumpFrom c 0 = c.map (· + 1) := by
  induction c with
  | nil => rfl
  | cons x c ih => simp [bumpFrom, ih]

lemma bumpFrom_set (c : List Nat) (i x : Nat) (h : c.get? i = some x) :
    bumpFrom (c.set i (x + 1)) (i + 1) = bumpFrom c i := by
  induction c generalizing i with
  | nil => simp at h
  | cons y c ih =>
    cases i with
    | zero =>
      simp only [List.get?] at h
      cases h
      simp [bumpFrom]
    | succ i =>
      simp only [List.get?] at h
      simp [bumpFrom, List.set, ih i h]

lemma bumpFrom_last (c : List Nat) (i x : Nat) (h : c.get? i = some x)
    (hl : i + 1 = c.length) : c.set i (x + 1) = bumpFrom c i := by
  induction c generalizing i with
  | nil => simp at h
  | cons y c ih =>
    cases i with
    | zero =>
      simp only [List.get?] at h
      cases h
      simp only [List.length_cons] at hl
      have : c = [] := by
        cases c with
        | nil => rfl
        | cons z t => simp at hl
      subst this
      rfl
    | succ i =>
      simp only [List.get?] at h
      simp only [List.length_cons] at hl
      simp [bumpFrom, List.set, ih i h (by omega)]

lemma dictGet_zip (l : List String) (c : List Nat) (i : Nat) (p : String)
    (hn : l.Nodup) (hc : c.length = l.length) (hp : l.get? i = some p) :
    dictGet (l.zip c) p = c.get? i := by
  induction l generalizing c i with
  | nil => simp at hp
  | cons a t ih =>
    cases c with
    | nil => simp at hc
    | cons x cs =>
      cases i with
      | zero =>
        simp only [List.get?] at hp
        cases hp
        simp [List.zip, dictGet]
      | succ i =>
        simp only [List.get?] at hp
        have hmem : p ∈ t := List.get?_mem hp
        have hap : a ≠ p := by
          intro hEq
          subst hEq
          exact (List.nodup_cons.mp hn).1 hmem
        simp only [List.zip, List.zipWith, dictGet, hap, if_false, List.get?]
        exact ih cs i (List.nodup_cons.mp hn).2 (by simpa using hc) hp

lemma dictSet_zip (l : List String) (c : List Nat) (i : Nat) (p : String) (v : Nat)
    (hn : l.Nodup) (hc : c.length = l.length) (hp : l.get? i = some p) :
    dictSet (l.zip c) p v = l.zip (c.set i v) := by
  induction l generalizing c i with
  | nil => simp at hp
  | cons a t ih =>
    cases c with
    | nil => simp at hc
    | cons x cs =>
      cases i with
      | zero =>
        simp only [List.get?] at hp
        cases hp
        simp [List.zip, dictSet]
      | succ i =>
        simp only [List.get?] at hp
        have hmem : p ∈ t := List.get?_mem hp
        have hap : a ≠ p := by
          intro hEq
          subst hEq
          exact (List.nodup_cons.mp hn).1 hmem
        simp only [List.zip, List.zipWith, dictSet, hap, if_false, List.set]
        exact congrArg _ (ih cs i (List.nodup_cons.mp hn).2 (by simpa using hc) hp)

lemma get_next_proxy_zip (l : List String) (c : List Nat) (i : Nat) (p : String)
    (x : Nat) (hn : l.Nodup) (hc : c.length = l.length)
    (hp : l.get? i = some p) (hx : c.get? i = some x) :
    ProxyRotator.get_next_proxy ⟨l, i, l.zip c⟩
      = .ok (some p, ⟨l, (i + 1) % l.length, l.zip (c.set i (x + 1))⟩) := by
  have hne : l.isEmpty = false := by
    cases l with
    | nil => simp at hp
    | cons a t => rfl
  have hp2 : l[i]? = some p := by
    rw [← List.get?_eq_getElem?]
    exact hp
  have hx2 : getElem? c i = some x := by
    rw [← List.get?_eq_getElem?]
    exact hx
  simp [ProxyRotator.get_next_proxy, hne, hp2, hx2,
    dictGet_zip l c i p hn hc hp, hx, dictSet_zip l c i p (x + 1) hn hc hp]

lemma getNextN_cycle (l : List String) (hn : l.Nodup) :
    ∀ (d i : Nat) (c : List Nat), c.length = l.length → i + d = l.length →
      1 ≤ d →
      getNextN ⟨l, i, l.zip c⟩ d = .ok ⟨l, 0, l.zip (bumpFrom c i)⟩ := by
  intro d
  induction d with
  | zero => intro i c _ _ hd; omega
  | succ d ih =>
    intro i c hc hiN _
    have hi : i < l.length := by omega
    obtain ⟨p, hp⟩ : ∃ p, l.get? i = some p :=
      ⟨l.get ⟨i, hi⟩, List.get?_eq_get hi⟩
    obtain ⟨x, hx⟩ : ∃ x, c.get? i = some x :=
      ⟨c.get ⟨i, by omega⟩, List.get?_eq_get (by omega)⟩
    simp only [getNextN]
    rw [get_next_proxy_zip l c i p x hn hc hp hx]
    by_cases hd : d = 0
    · subst hd
      have hiN1 : i + 1 = l.length := by omega
      have hmod : (i + 1) % l.length = 0 := by
        rw [hiN1, Nat.mod_self]
      rw [hmod]
      simp only [getNextN]
      rw [bumpFrom_last c i x hx (by omega)]
    · have hlt : i + 1 < l.length := by omega
      have hmod : (i + 1) % l.length = i + 1 := Nat.mod_eq_of_lt hlt
      rw [hmod]
      show getNextN ⟨l, i + 1, l.zip (c.set i (x + 1))⟩ d
        = .ok ⟨l, 0, l.zip (bumpFrom c i)⟩
      have := ih (i + 1) (c.set i (x + 1)) (by simp [hc]) (by omega) (by omega)
      rw [this, bumpFrom_set c i x hx]

lemma getNextN_add (r : ProxyRotator) (m n : Nat) :
    getNextN r (m + n) = match getNextN r m with
      | .error e => .error e
      | .ok r2 => getNextN r2 n := by
  induction m generalizing r with
  | zero => simp [getNextN]
  | succ m ih =>
    have hs : m + 1 + n = (m + n) + 1 := by omega
    rw [hs]
    simp only [getNextN]
    cases r.get_next_proxy with
    | error e => rfl
    | ok pr => exact ih pr.2

lemma getNextN_cycles (l : List String) (hn : l.Nodup) (hN : 1 ≤ l.length) :
    ∀ (k : Nat) (c : List Nat), c.length = l.length →
      getNextN ⟨l, 0, l.zip c⟩ (k * l.length)
        = .ok ⟨l, 0, l.zip (c.map (· + k))⟩ := by
  intro k
  induction k with
  | zero =>
    intro c hc
    simp [getNextN]
  | succ k ih =>
    intro c hc
    have hsplit : (k + 1) * l.length = l.length + k * l.length := by ring
    rw [hsplit, getNextN_add]
    rw [getNextN_cycle l hn l.length 0 c hc (by omega) hN]
    rw [bumpFrom_zero]
    show getNextN ⟨l, 0, l.zip (c.map (· + 1))⟩ (k * l.length)
      = .ok ⟨l, 0, l.zip (c.map (· + (k + 1)))⟩
    rw [ih (c.map (· + 1)) (by simp [hc])]
    have hmap : (c.map (· + 1)).map (· + k) = c.map (· + (k + 1)) := by
      rw [List.map_map]
      apply List.map_congr_left
      intro x _
      simp [Function.comp]
      omega
    rw [hmap]

lemma dictSet_fresh {β : Type} (d : List (String × β)) (a : String) (v : β)
    (h : dictGet d a = none) : dictSet d a v = d ++ [(a, v)] := by
  induction d with
  | nil => rfl
  | cons hd tl ih =>
    obtain ⟨b, w⟩ := hd
    rw [dictGet] at h
    by_cases hba : b = a
    · simp [hba] at h
    · rw [dictSet, if_neg hba, List.cons_append]
      rw [if_neg hba] at h
      rw [ih h]

lemma dictGet_append_single {β : Type} (d : List (String × β)) (a p : String)
    (v : β) (h : dictGet d p = none) (hap : a ≠ p) :
    dictGet (d ++ [(a, v)]) p = none := by
  induction d with
  | nil => simp [dictGet, hap]
  | cons hd tl ih =>
    obtain ⟨b, w⟩ := hd
    rw [dictGet] at h
    by_cases hbp : b = p
    · simp [hbp] at h
    · rw [List.cons_append, dictGet, if_neg hbp]
      rw [if_neg hbp] at h
      exact ih h

lemma foldl_dictSet_zeros :
    ∀ (l : List String) (d : List (String × Nat)), l.Nodup →
      (∀ p ∈ l, dictGet d p = none) →
      l.foldl (fun d p => dictSet d p 0) d
        = d ++ l.zip (List.replicate l.length 0) := by
  intro l
  induction l with
  | nil => intro d _ _; simp
  | cons a t ih =>
    intro d hn hfresh
    rw [List.foldl_cons]
    have ha : dictGet d a = none := hfresh a (by simp)
    rw [dictSet_fresh d a 0 ha]
    rw [ih (d ++ [(a, 0)]) (List.nodup_cons.mp hn).2 ?fresh]
    · simp [List.zip, List.replicate_succ]
    case fresh =>
      intro p hp
      have hap : a ≠ p := by
        intro hEq
        subst hEq
        exact (List.nodup_cons.mp hn).1 hp
      exact dictGet_append_single d a p 0 (hfresh p (by simp [hp])) hap

lemma proxyRotator_init_eq (l : List String) (hn : l.Nodup) :
    ProxyRotator.init l = ⟨l, 0, l.zip (List.replicate l.length 0)⟩ := by
  unfold ProxyRotator.init
  rw [foldl_dictSet_zeros l [] hn (by intro p _; rfl)]
  rfl

/-- Claim C7: from a freshly constructed `ProxyRotator` over `N ≥ 1` proxies
(the proxy pool is a set, so the entries are pairwise distinct), `k * N`
round-robin calls to `get_next_proxy` succeed and leave every proxy's usage
counter at exactly `k`. -/
theorem c7_round_robin_fairness (l : List String) (k : Nat)
    (hn : l.Nodup) (hN : 1 ≤ l.length) :
    ∃ r2 : ProxyRotator,
      getNextN (ProxyRotator.init l) (k * l.length) = .ok r2 ∧
      ∀ p ∈ l, dictGet r2.usage_count p = some k := by
  refine ⟨⟨l, 0, l.zip ((List.replicate l.length 0).map (· + k))⟩, ?_, ?_⟩
  · rw [proxyRotator_init_eq l hn]
    exact getNextN_cycles l hn hN k _ (by simp)
  · intro p hp
    obtain ⟨i, hget⟩ := List.mem_iff_get?.mp hp
    have hi : i < l.length := by
      by_contra hge
      rw [List.get?_eq_none.mpr (by omega)] at hget
      exact Option.noConfusion hget
    have hrep : (List.replicate l.length 0).map (· + k)
        = List.replicate l.length k := by simp
    show dictGet (l.zip ((List.replicate l.length 0).map (· + k))) p = some k
    rw [hrep, dictGet_zip l (List.replicate l.length k) i p hn (by simp) hget]
    rw [List.get?_eq_get (by simpa using hi)]
    simp

/-- Witness for C7 at `l = ["a", "b", "c"]`, `k = 2`. -/
theorem c7_round_robin_fairness_witness :
    ∃ r2 : ProxyRotator,
      getNextN (ProxyRotator.init ["a", "b", "c"]) (2 * (["a", "b", "c"] : List String).length)
        = .ok r2 ∧
      ∀ p ∈ (["a", "b", "c"] : List String), dictGet r2.usage_count p = some 2 :=
  c7_round_robin_fairness ["a", "b", "c"] 2 (by decide) (by decide)

/-!
## FingerprintManager (`fingerprint_manager.py`)
-/

/-- The `BrowserFingerprint` dataclass (timestamps as `Nat` seconds). -/
structure BrowserFingerprint where
  hardware_concurrency : Nat
  device_memory : Nat
  max_touch_points : Nat
  platform : String
  platform_version : String
  user_agent : String
  browser_vendor : String
  screen_width : Nat
  screen_height : Nat
  screen_color_depth : Nat
  timezone : String
  timezone_offset : Int
  language : String
  languages : List String
  webgl_vendor : String
  webgl_renderer : String
  canvas_fingerprint : String
  do_not_track : Option Bool
  plugins : List String
  created_at : Nat
  last_used : Nat
  use_count : Nat
deriving DecidableEq, Repr

/-- State of a `FingerprintManager` instance. -/
structure FingerprintManager where
  fingerprints : List (String × BrowserFingerprint)
  session_to_fingerprint : List (String × String)
deriving DecidableEq, Repr

/-- The static `USER_AGENTS` table, keyed by `(browser, os)`. -/
def FingerprintManager.USER_AGENTS :
    List ((String × String) × List String) :=
  [(("Chrome", "Win32"),
    ["Mozilla/5.0 (Windows NT 10.0; Win64; x64) AppleWebKit/537.36 (KHTML, like Gecko) Chrome/120.0.0.0 Safari/537.36",
     "Mozilla/5.0 (Windows NT 10.0; Win64; x64) AppleWebKit/537.36 (KHTML, like Gecko) Chrome/119.0.0.0 Safari/537.36",
     "Mozilla/5.0 (Windows NT 10.0; Win64; x64) AppleWebKit/537.36 (KHTML, like Gecko) Chrome/118.0.0.0 Safari/537.36"]),
   (("Chrome", "MacIntel"),
    ["Mozilla/5.0 (Macintosh; Intel Mac OS X 10_15_7) AppleWebKit/537.36 (KHTML, like Gecko) Chrome/120.0.0.0 Safari/537.36",
     "Mozilla/5.0 (Macintosh; Intel Mac OS X 10_15_7) AppleWebKit/537.36 (KHTML, like Gecko) Chrome/119.0.0.0 Safari/537.36"]),
   (("Firefox", "Win32"),
    ["Mozilla/5.0 (Windows NT 10.0; Win64; x64; rv:121.0) Gecko/20100101 Firefox/121.0",
     "Mozilla/5.0 (Windows NT 10.0; Win64; x64; rv:120.0) Gecko/20100101 Firefox/120.0"]),
   (("Firefox", "MacIntel"),
    ["Mozilla/5.0 (Macintosh; Intel Mac OS X 10.15; rv:121.0) Gecko/20100101 Firefox/121.0",
     "Mozilla/5.0 (Macintosh; Intel Mac OS X 10.15; rv:120.0) Gecko/20100101 Firefox/120.0"]),
   (("Safari", "MacIntel"),
    ["Mozilla/5.0 (Macintosh; Intel Mac OS X 10_15_7) AppleWebKit/605.1.15 (KHTML, like Gecko) Version/17.1 Safari/605.1.15",
     "Mozilla/5.0 (Macintosh; Intel Mac OS X 10_15_7) AppleWebKit/605.1.15 (KHTML, like Gecko) Version/17.0 Safari/605.1.15"])]

/-- The static `WEBGL_INFO` table of matched (vendor, renderer) rows. -/
def FingerprintManager.WEBGL_INFO : List (String × String) :=
  [("Google Inc.", "ANGLE (Intel HD Graphics 630)"),
   ("Apple Inc.", "Apple M1"),
   ("Intel", "Intel Iris Graphics"),
   ("NVIDIA", "NVIDIA GeForce GTX 1080"),
   ("AMD", "AMD Radeon RX 5700")]

/-- `FingerprintManager._get_user_agent(browser, os_type)`: one uniform draw
from the table row when the `(browser, os)` key is present, otherwise the
generic fallback agent without consuming a draw. -/
def FingerprintManager._get_user_agent (browser os_type : String) (g : Rng) :
    String × Rng :=
  match dictGet FingerprintManager.USER_AGENTS (browser, os_type) with
  | some agents => randChoice agents "" g
  | none => ("Mozilla/5.0 (X11; Linux x86_64) AppleWebKit/537.36", g)

/-- `FingerprintManager._get_browser_vendor(browser)`. -/
def FingerprintManager._get_browser_vendor (browser : String) : String :=
  (dictGet [("Chrome", "Google Inc."), ("Firefox", "Mozilla"),
            ("Safari", "Apple Inc."), ("Edge", "Microsoft Inc.")] browser).getD
    "Google Inc."

/-- `FingerprintManager._get_platform_version(os_type)`. -/
def FingerprintManager._get_platform_version (os_type : String) : String :=
  (dictGet [("Win32", "10.0"), ("MacIntel", "10.15.7"),
            ("Linux x86_64", "5.10.0")] os_type).getD "10.0"

/-- `FingerprintManager._get_timezone_offset(timezone)`: static map with
default 0. -/
def FingerprintManager._get_timezone_offset (timezone : String) : Int :=
  (dictGet [("America/New_York", (-300 : Int)), ("America/Chicago", -360),
            ("America/Denver", -420), ("America/Los_Angeles", -480),
            ("Europe/London", 0), ("Europe/Paris", 60), ("Asia/Tokyo", 540),
            ("Asia/Kolkata", 330), ("Australia/Sydney", 600)] timezone).getD 0

/-- `FingerprintManager._get_language_from_timezone(timezone)`: static map
with default `"en-US"`. -/
def FingerprintManager._get_language_from_timezone (timezone : String) : String :=
  (dictGet [("America/New_York", "en-US"), ("America/Chicago", "en-US"),
            ("America/Denver", "en-US"), ("America/Los_Angeles", "en-US"),
            ("Europe/London", "en-GB"), ("Europe/Paris", "fr-FR"),
            ("Asia/Tokyo", "ja-JP"), ("Asia/Kolkata", "hi-IN"),
            ("Australia/Sydney", "en-AU")] timezone).getD "en-US"

/-- Python's substring test `"en" in lang`. -/
def strContainsEn (lang : String) : Bool :=
  decide (List.IsInfix ("en".data) (lang.data))

/-- `FingerprintManager._get_language_list(timezone)`. -/
def FingerprintManager._get_language_list (timezone : String) : List String :=
  let lang := FingerprintManager._get_language_from_timezone timezone
  let en := if strContainsEn lang then "en-US" else "en-GB"
  if lang ≠ en then [lang, en] else [lang]

/-- `FingerprintManager._get_webgl_vendor()`: one uniform draw over the
vendor column of `WEBGL_INFO`. -/
def FingerprintManager._get_webgl_vendor (g : Rng) : String × Rng :=
  randChoice (FingerprintManager.WEBGL_INFO.map (fun item => item.1)) "" g

/-- `FingerprintManager._get_webgl_renderer()`: draws a *fresh* vendor via
`_get_webgl_vendor` and then a renderer matching that fresh vendor. -/
def FingerprintManager._get_webgl_renderer (g : Rng) : String × Rng :=
  let vr := FingerprintManager._get_webgl_vendor g
  let matching :=
    (FingerprintManager.WEBGL_INFO.filter (fun item => item.1 = vr.1)).map
      (fun item => item.2)
  if matching.isEmpty then ("ANGLE", vr.2) else randChoice matching "" vr.2

/-- Stand-in for `hashlib.sha256(seed).hexdigest()[:16]`: no claim depends on
the hash value itself, so the digest is modelled as the seed string. -/
def sha256hex16 (seed : String) : String := seed

/-- `FingerprintManager._generate_canvas_hash(os, browser, timezone)`: one
`random.random()` draw mixed into the hashed seed. -/
def FingerprintManager._generate_canvas_hash (os_type browser timezone : String)
    (g : Rng) : String × Rng :=
  let r := rngNext g
  (sha256hex16 (os_type ++ "-" ++ browser ++ "-" ++ timezone ++ "-" ++ toString r.1),
   r.2)

/-- `FingerprintManager._get_plugins(browser)`. -/
def FingerprintManager._get_plugins (browser : String) : List String :=
  if browser = "Chrome" then
    ["Chrome PDF Plugin", "Chrome PDF Viewer", "Native Client Executable"]
  else if browser = "Firefox" then ["Shockwave Flash"]
  else if browser = "Safari" then ["Java Plug-in 2 for NPAPI"]
  else []

/-- `FingerprintManager.generate_fingerprint(session_key, browser, os_type,
timezone)`: the random draws happen in source order (`user_agent` first, then
the constructor arguments top to bottom), and the result is stored under
`session_key`, overwriting any previous entry. -/
def FingerprintManager.generate_fingerprint (m : FingerprintManager)
    (session_key browser os_type timezone : String) (now : Nat) (g : Rng) :
    BrowserFingerprint × FingerprintManager × Rng :=
  let uar := FingerprintManager._get_user_agent browser os_type g
  let hcr := randInt 4 16 uar.2
  let dmr := randChoice [4, 8, 16, 32] 0 hcr.2
  let swr := randChoice [1920, 2560, 1440, 1366, 1280] 0 dmr.2
  let shr := randChoice [1080, 1440, 900, 768, 720] 0 swr.2
  let cdr := randChoice [24, 32] 0 shr.2
  let wvr := FingerprintManager._get_webgl_vendor cdr.2
  let wrr := FingerprintManager._get_webgl_renderer wvr.2
  let car := FingerprintManager._generate_canvas_hash os_type browser timezone wrr.2
  let dnr := randChoice [none, some true, some false] none car.2
  let fp : BrowserFingerprint :=
    { hardware_concurrency := hcr.1
      device_memory := dmr.1
      max_touch_points := 0
      platform := os_type
      platform_version := FingerprintManager._get_platform_version os_type
      user_agent := uar.1
      browser_vendor := FingerprintManager._get_browser_vendor browser
      screen_width := swr.1
      screen_height := shr.1
      screen_color_depth := cdr.1
      timezone := timezone
      timezone_offset := FingerprintManager._get_timezone_offset timezone
      language := FingerprintManager._get_language_from_timezone timezone
      languages := FingerprintManager._get_language_list timezone
      webgl_vendor := wvr.1
      webgl_renderer := wrr.1
      canvas_fingerprint := car.1
      do_not_track := dnr.1
      plugins := FingerprintManager._get_plugins browser
      created_at := now
      last_used := now
      use_count := 0 }
  (fp,
   { fingerprints := dictSet m.fingerprints session_key fp
     session_to_fingerprint :=
       dictSet m.session_to_fingerprint session_key session_key },
   dnr.2)

/-- `FingerprintManager.get_fingerprint(session_key)`: bump `use_count` and
`last_used` when present; `None` otherwise. -/
def FingerprintManager.get_fingerprint (m : FingerprintManager)
    (session_key : String) (now : Nat) :
    Option BrowserFingerprint × FingerprintManager :=
  match dictGet m.fingerprints session_key with
  | some fp =>
    let fp2 := { fp with last_used := now, use_count := fp.use_count + 1 }
    (some fp2, { m with fingerprints := dictSet m.fingerprints session_key fp2 })
  | none => (none, m)

/-- `FingerprintManager._random_browser()`: the source evaluates
`random.choice(list(BrowserType)).__value__`.  The draw itself succeeds, but
enum members expose `.value`, not `.__value__`, so the attribute access then
raises `AttributeError`. -/
def FingerprintManager._random_browser (g : Rng) : Except PyErr (String × Rng) :=
  let _drawn := randChoice ["Chrome", "Firefox", "Safari", "Edge"] "" g
  .error .attributeError

/-- `FingerprintManager._random_os()`: same `.__value__` slip as
`_random_browser`, on `list(OSType)`. -/
def FingerprintManager._random_os (g : Rng) : Except PyErr (String × Rng) :=
  let _drawn :=
    randChoice ["Win32", "MacIntel", "Linux x86_64", "iPhone", "Android"] "" g
  .error .attributeError

/-- `list(TimezoneType)` in enum declaration order. -/
def TimezoneTypeList : List String :=
  ["America/New_York", "America/Chicago", "America/Denver",
   "America/Los_Angeles", "Europe/London", "Europe/Paris",
   "Australia/Sydney", "Asia/Tokyo", "Asia/Kolkata"]

/-- Python `x or f()` on an `Optional[str]`: the fallback runs iff `x` is
falsy (`None` or the empty string). -/
def pyOrExcept (x : Option String) (f : Rng → Except PyErr (String × Rng))
    (g : Rng) : Except PyErr (String × Rng) :=
  match x with
  | some s => if s.isEmpty then f g else .ok (s, g)
  | none => f g

/-- Loop body of `FingerprintManager.rotate_fingerprints`: per key, resolve
browser and os (`new_browser or self._random_browser()` etc.), draw a
timezone from `list(TimezoneType)`, regenerate, record the result. -/
def rotateFingerprintsLoop (m : FingerprintManager) (keys : List String)
    (new_browser new_os : Option String) (now : Nat) (g : Rng)
    (results : List (String × BrowserFingerprint)) :
    Except PyErr (List (String × BrowserFingerprint) × FingerprintManager × Rng) :=
  match keys with
  | [] => .ok (results, m, g)
  | key :: rest =>
    match pyOrExcept new_browser FingerprintManager._random_browser g with
    | .error e => .error e
    | .ok bg =>
      match pyOrExcept new_os FingerprintManager._random_os bg.2 with
      | .error e => .error e
      | .ok og =>
        let tzr := randChoice TimezoneTypeList "" og.2
        let fr := m.generate_fingerprint key bg.1 og.1 tzr.1 now tzr.2
        rotateFingerprintsLoop fr.2.1 rest new_browser new_os now fr.2.2
          (dictSet results key fr.1)

/-- `FingerprintManager.rotate_fingerprints(session_keys, new_browser,
new_os)`. -/
def FingerprintManager.rotate_fingerprints (m : FingerprintManager)
    (session_keys : List String) (new_browser new_os : Option String)
    (now : Nat) (g : Rng) :
    Except PyErr (List (String × BrowserFingerprint) × FingerprintManager × Rng) :=
  rotateFingerprintsLoop m session_keys new_browser new_os now g []

/-- Claim C2: `rotate_fingerprints` is claimed total — in particular callable
with `new_browser`/`new_os` omitted, resolving a uniformly random browser/os.
The code violates this: with `new_browser` omitted, the very first key makes
`_random_browser` evaluate `random.choice(list(BrowserType)).__value__`, and
enum members have no `__value__` attribute (the attribute is `value`), so the
call raises `AttributeError` instead of returning a map.  The repository's
own tests (`test_rotate_multiple_fingerprints`, `test_rotate_with_new_os`,
`test_rotate_single_fingerprint`) all exercise this path. -/
theorem c2_rotate_fingerprints_raises_attribute_error :
    FingerprintManager.rotate_fingerprints ⟨[], []⟩ ["session-1"] none none 0 []
      = .error .attributeError := by
  rfl

/-- Claim C3: every generated fingerprint is claimed to carry a
vendor/renderer pair forming a row of `WEBGL_INFO`.  The code violates this:
`webgl_vendor` and `webgl_renderer` come from two *independent* vendor draws,
so the draws below store vendor `"Google Inc."` (first draw) next to renderer
`"Apple M1"` (renderer matched to an independently drawn `"Apple Inc."`) — a
pair matching no row of the table. -/
theorem c3_webgl_pair_mismatch :
    (FingerprintManager.generate_fingerprint ⟨[], []⟩ "session-1" "Chrome"
        "Win32" "America/New_York" 0
        [0, 0, 0, 0, 0, 0, 0, 1, 0, 0, 0]).1.webgl_vendor = "Google Inc." ∧
    (FingerprintManager.generate_fingerprint ⟨[], []⟩ "session-1" "Chrome"
        "Win32" "America/New_York" 0
        [0, 0, 0, 0, 0, 0, 0, 1, 0, 0, 0]).1.webgl_renderer = "Apple M1" ∧
    ∀ row ∈ FingerprintManager.WEBGL_INFO,
      ¬(row.1 = "Google Inc." ∧ row.2 = "Apple M1") := by
  refine ⟨rfl, rfl, by decide⟩

/-- Claim C8: the `language` and `timezone_offset` fields of any two
fingerprints generated with the same timezone agree, whatever the manager
states, session keys, browsers, os types, clocks and random draws are; both
fields equal a deterministic function of the timezone alone. -/
theorem c8_timezone_determinism (m1 m2 : FingerprintManager)
    (k1 k2 b1 b2 o1 o2 tz : String) (n1 n2 : Nat) (g1 g2 : Rng) :
    ((m1.generate_fingerprint k1 b1 o1 tz n1 g1).1.language
      = (m2.generate_fingerprint k2 b2 o2 tz n2 g2).1.language) ∧
    ((m1.generate_fingerprint k1 b1 o1 tz n1 g1).1.timezone_offset
      = (m2.generate_fingerprint k2 b2 o2 tz n2 g2).1.timezone_offset) ∧
    (m1.generate_fingerprint k1 b1 o1 tz n1 g1).1.language
      = FingerprintManager._get_language_from_timezone tz ∧
    (m1.generate_fingerprint k1 b1 o1 tz n1 g1).1.timezone_offset
      = FingerprintManager._get_timezone_offset tz := by
  exact ⟨rfl, rfl, rfl, rfl⟩

/-!
## CamofoxClient (`camofox_client.py`)
-/

/-- Local bookkeeping of a `CamofoxClient` instance: `self.tabs`, the
session-key → tab-id map. -/
structure ClientState where
  tabs : List (String × String)
deriving DecidableEq, Repr

/-- One remote HTTP exchange of `create_tab`: either a
connection/timeout failure, or a response with a status code and the
optional `tabId` / `id` fields of its JSON body. -/
structure HttpResp where
  status : Nat
  tabId : Option String
  id : Option String
deriving DecidableEq, Repr

/-- One remote HTTP exchange of `get_snapshot`: a connection/timeout failure
is `none` in the oracle; a response carries a status and its JSON payload
(kept abstract as a string). -/
structure SnapResp where
  status : Nat
  body : String
deriving DecidableEq, Repr

/-- What one attempt of a `_retry`-wrapped body does: return, raise a
transient `requests.ConnectionError`/`requests.Timeout` (the only exceptions
the wrapper catches), or raise anything else (propagated uncaught). -/
inductive AttemptResult (α : Type) where
  | ok (a : α)
  | transient
  | raiseApp (e : PyErr)

/-- The loop of the `_retry(max_retries, backoff)` decorator, from attempt
number `attempt` with `remaining` iterations left and `slept` seconds already
spent sleeping.  A transient failure sleeps `backoff * 2 ^ attempt` — but only
when further attempts remain — and continues; exhaustion raises
`CamofoxError("Failed after … retries")`. -/
def retryFrom {α : Type} (backoff : ℚ) (f : Nat → AttemptResult α) :
    Nat → Nat → ℚ → Except PyErr α × ℚ
  | _attempt, 0, slept => (.error .camofoxRetriesExhausted, slept)
  | attempt, remaining + 1, slept =>
    match f attempt with
    | .ok a => (.ok a, slept)
    | .raiseApp e => (.error e, slept)
    | .transient =>
      if remaining == 0 then retryFrom backoff f (attempt + 1) remaining slept
      else retryFrom backoff f (attempt + 1) remaining (slept + backoff * 2 ^ attempt)

/-- Python `a or b` over two `Optional[str]` JSON fields
(`data.get("tabId") or data.get("id")`). -/
def pyOrOpt (a b : Option String) : Option String :=
  match pyTruthy a with
  | some s => some s
  | none => pyTruthy b

/-- Body of one `create_tab` attempt against a response: non-201/200 status
and missing/empty `tabId` raise `CamofoxError` (not caught by `_retry`);
success records `self.tabs[session_key] = tab_id` and returns the id. -/
def create_tab_attempt (st : ClientState) (session_key : String)
    (resp : HttpResp) : AttemptResult (String × ClientState) :=
  if resp.status ≠ 201 ∧ resp.status ≠ 200 then .raiseApp (.camofoxHttp resp.status)
  else
    match pyOrOpt resp.tabId resp.id with
    | none => .raiseApp .camofoxNoTabId
    | some tab_id =>
      .ok (tab_id, { st with tabs := dictSet st.tabs session_key tab_id })

/-- `CamofoxClient.create_tab(user_id, session_key, url, proxy)`, wrapped in
`@_retry(max_retries=3)`: `env` gives each attempt's remote outcome (`none` =
connection/timeout), and the second component is the total time slept. -/
def CamofoxClient.create_tab (st : ClientState)
    (user_id session_key url : String) (proxy : Option String)
    (env : Nat → Option HttpResp) (backoff : ℚ) :
    Except PyErr (String × ClientState) × ℚ :=
  retryFrom backoff
    (fun attempt =>
      match env attempt with
      | none => .transient
      | some resp => create_tab_attempt st session_key resp)
    0 3 0

/-- `CamofoxClient.get_snapshot(tab_id, user_id)`, wrapped in
`@_retry(max_retries=3)`: a non-200 status raises `CamofoxError`
immediately; otherwise the JSON payload is returned. -/
def CamofoxClient.get_snapshot (tab_id user_id : String)
    (env : Nat → Option SnapResp) (backoff : ℚ) : Except PyErr String × ℚ :=
  retryFrom backoff
    (fun attempt =>
      match env attempt with
      | none => .transient
      | some resp =>
        if resp.status ≠ 200 then .raiseApp (.camofoxHttp resp.status)
        else .ok resp.body)
    0 3 0

/-- Outcome of the single remote `DELETE /tabs/{tab_id}` of `close_tab`:
an exception, or a response status. -/
inductive DeleteOutcome where
  | conn
  | status (s : Nat)
deriving DecidableEq, Repr

/-- Remove the first `self.tabs` entry whose *value* is `tab_id` (the
`for key, tid in list(self.tabs.items()): … break` loop of `close_tab`). -/
def removeFirstValue (d : List (String × String)) (tab_id : String) :
    List (String × String) :=
  match d with
  | [] => []
  | (k, v) :: rest =>
    if v = tab_id then rest else (k, v) :: removeFirstValue rest tab_id

/-- The body of `close_tab` without its `try`/`except`: the remote delete
may raise, and only a 200 status removes the local bookkeeping entry. -/
def close_tab_inner (st : ClientState) (tab_id : String) (out : DeleteOutcome) :
    Except PyErr ClientState :=
  match out with
  | .conn => .error .camofoxNoTabId
  | .status s =>
    .ok (if s = 200 then { st with tabs := removeFirstValue st.tabs tab_id }
         else st)

/-- `CamofoxClient.close_tab(tab_id)`: the whole body sits in
`try: … except Exception as e: logger.error(…)`, so every raised exception is
swallowed and the state is whatever had been reached (no mutation precedes
the request). -/
def CamofoxClient.close_tab (st : ClientState) (tab_id : String)
    (out : DeleteOutcome) : ClientState :=
  match close_tab_inner st tab_id out with
  | .ok st2 => st2
  | .error _ => st

lemma dictGet_removeFirstValue (d : List (String × String)) (tab_id k v : String)
    (hk : dictGet d k = some v) (hv : v ≠ tab_id) :
    dictGet (removeFirstValue d tab_id) k = some v := by
  induction d with
  | nil => simp [dictGet] at hk
  | cons hd tl ih =>
    obtain ⟨a, b⟩ := hd
    rw [dictGet] at hk
    by_cases hak : a = k
    · rw [if_pos hak] at hk
      cases hk
      rw [removeFirstValue, if_neg hv, dictGet, if_pos hak]
    · rw [if_neg hak] at hk
      rw [removeFirstValue]
      by_cases hbt : b = tab_id
      · rw [if_pos hbt]
        exact hk
      · rw [if_neg hbt, dictGet, if_neg hak]
        exact ih hk

/-- Counterexample to claim C5: `close_tab` is claimed to *always* remove the
tab from the local session-key → tab-id bookkeeping regardless of the remote
outcome.  On a non-200 delete response (here 404) the code leaves
`self.tabs` untouched: the entry for `"s1"` still maps to the closed id. -/
theorem c5_counterexample_bookkeeping_kept :
    dictGet (CamofoxClient.close_tab ⟨[("s1", "t1")]⟩ "t1" (.status 404)).tabs "s1"
      = some "t1" := by
  rfl

/-- Claim C5 (amended): `close_tab` never raises — for every state, tab id
and remote outcome it returns a state, swallowing connection errors — and it
removes the first bookkeeping entry for that tab exactly when the remote
delete answers 200; on any other status, and on a connection error, the local
bookkeeping is left unchanged; entries for other tab ids always survive. -/
theorem c5_close_tab_best_effort (st : ClientState) (tab_id : String)
    (out : DeleteOutcome) :
    (out = .status 200 →
      (CamofoxClient.close_tab st tab_id out).tabs
        = removeFirstValue st.tabs tab_id) ∧
    (∀ s, s ≠ 200 → out = .status s → CamofoxClient.close_tab st tab_id out = st) ∧
    (CamofoxClient.close_tab st tab_id .conn = st) ∧
    (∀ e, close_tab_inner st tab_id out = .error e →
      CamofoxClient.close_tab st tab_id out = st) ∧
    (∀ k v, dictGet st.tabs k = some v → v ≠ tab_id →
      dictGet (CamofoxClient.close_tab st tab_id out).tabs k = some v) := by
  refine ⟨?_, ?_, ?_, ?_, ?_⟩
  · intro h
    subst h
    rfl
  · intro s hs h
    subst h
    simp [CamofoxClient.close_tab, close_tab_inner, hs]
  · rfl
  · intro e he
    simp [CamofoxClient.close_tab, he]
  · intro k v hk hv
    cases out with
    | conn => exact hk
    | status s =>
      by_cases hs : s = 200
      · subst hs
        show dictGet (removeFirstValue st.tabs tab_id) k = some v
        exact dictGet_removeFirstValue st.tabs tab_id k v hk hv
      · simp [CamofoxClient.close_tab, close_tab_inner, hs]
        exact hk

/-- Witness for C5 (amended) at concrete inputs: remote 200 removes the
entry, remote 404 and a connection error keep it, and the entry of a
different tab survives a 200 delete of `"t9"`. -/
theorem c5_close_tab_best_effort_witness :
    (CamofoxClient.close_tab ⟨[("s1", "t1")]⟩ "t1" (.status 200)).tabs
      = removeFirstValue [("s1", "t1")] "t1" ∧
    CamofoxClient.close_tab ⟨[("s1", "t1")]⟩ "t1" (.status 404)
      = ⟨[("s1", "t1")]⟩ ∧
    CamofoxClient.close_tab ⟨[("s1", "t1")]⟩ "t1" .conn = ⟨[("s1", "t1")]⟩ ∧
    dictGet (CamofoxClient.close_tab ⟨[("s1", "t1")]⟩ "t9" (.status 200)).tabs "s1"
      = some "t1" := by
  refine ⟨(c5_close_tab_best_effort ⟨[("s1", "t1")]⟩ "t1" (.status 200)).1 rfl,
    (c5_close_tab_best_effort ⟨[("s1", "t1")]⟩ "t1" (.status 404)).2.1 404
      (by decide) rfl,
    (c5_close_tab_best_effort ⟨[("s1", "t1")]⟩ "t1" .conn).2.2.1,
    (c5_close_tab_best_effort ⟨[("s1", "t1")]⟩ "t9" (.status 200)).2.2.2.2 "s1"
      "t1" (by decide) (by decide)⟩

lemma retryFrom_three {α : Type} (b : ℚ) (f : Nat → AttemptResult α) :
    retryFrom b f 0 3 0 =
      match f 0 with
      | .ok a => (.ok a, 0)
      | .raiseApp e => (.error e, 0)
      | .transient =>
        match f 1 with
        | .ok a => (.ok a, 0 + b * 2 ^ 0)
        | .raiseApp e => (.error e, 0 + b * 2 ^ 0)
        | .transient =>
          match f 2 with
          | .ok a => (.ok a, 0 + b * 2 ^ 0 + b * 2 ^ 1)
          | .raiseApp e => (.error e, 0 + b * 2 ^ 0 + b * 2 ^ 1)
          | .transient =>
            (.error .camofoxRetriesExhausted, 0 + b * 2 ^ 0 + b * 2 ^ 1) := by
  show (match f 0 with
    | .ok a => (Except.ok a, (0 : ℚ))
    | .raiseApp e => (.error e, 0)
    | .transient => retryFrom b f 1 2 (0 + b * 2 ^ 0)) = _
  cases f 0 with
  | ok a => rfl
  | raiseApp e => rfl
  | transient =>
    show (match f 1 with
      | .ok a => (Except.ok a, 0 + b * 2 ^ 0)
      | .raiseApp e => (.error e, 0 + b * 2 ^ 0)
      | .transient => retryFrom b f 2 1 (0 + b * 2 ^ 0 + b * 2 ^ 1)) = _
    cases f 1 with
    | ok a => rfl
    | raiseApp e => rfl
    | transient =>
      cases h2 : f 2 with
      | ok a => simp [retryFrom, h2]
      | raiseApp e => simp [retryFrom, h2]
      | transient => simp [retryFrom, h2]

/-- Claim C4: `create_tab` and `get_snapshot` (both wrapped in
`@_retry(max_retries=3)`) retry only on connection/timeout failures, sleep
`backoff * 2 ^ attempt` between attempts, and raise the retries-exhausted
`CamofoxError` after the fixed 3 attempts with total sleep
`backoff * (2^0 + 2^1)`; a non-2xx HTTP status raises immediately, with no
retry and no sleep; and on the connection-error–connection-error–success
scenario `create_tab` returns the tab id (recording it in `self.tabs`) with
total sleep `backoff * (2^0 + 2^1)`. -/
theorem c4_retry_backoff (st : ClientState) (user_id session_key url : String)
    (proxy : Option String) (backoff : ℚ) (tab : String) :
    (∀ env : Nat → Option HttpResp, env 0 = none → env 1 = none → env 2 = none →
      CamofoxClient.create_tab st user_id session_key url proxy env backoff
        = (.error .camofoxRetriesExhausted, backoff * (2 ^ 0 + 2 ^ 1))) ∧
    (∀ (env : Nat → Option HttpResp) (resp : HttpResp), env 0 = some resp →
      resp.status ≠ 201 → resp.status ≠ 200 →
      CamofoxClient.create_tab st user_id session_key url proxy env backoff
        = (.error (.camofoxHttp resp.status), 0)) ∧
    (∀ (env : Nat → Option HttpResp) (resp : HttpResp), env 0 = none →
      env 1 = none → env 2 = some resp → resp.status = 200 →
      resp.tabId = some tab → tab ≠ "" →
      CamofoxClient.create_tab st user_id session_key url proxy env backoff
        = (.ok (tab, { st with tabs := dictSet st.tabs session_key tab }),
           backoff * (2 ^ 0 + 2 ^ 1))) ∧
    (∀ env : Nat → Option SnapResp, env 0 = none → env 1 = none → env 2 = none →
      CamofoxClient.get_snapshot tab user_id env backoff
        = (.error .camofoxRetriesExhausted, backoff * (2 ^ 0 + 2 ^ 1))) ∧
    (∀ (env : Nat → Option SnapResp) (resp : SnapResp), env 0 = some resp →
      resp.status ≠ 200 →
      CamofoxClient.get_snapshot tab user_id env backoff
        = (.error (.camofoxHttp resp.status), 0)) := by
  refine ⟨?_, ?_, ?_, ?_, ?_⟩
  · intro env h0 h1 h2
    show retryFrom backoff _ 0 3 0 = _
    rw [retryFrom_three]
    simp only [h0, h1, h2]
    rw [Prod.mk.injEq]
    exact ⟨rfl, by ring⟩
  · intro env resp h0 hs1 hs2
    show retryFrom backoff _ 0 3 0 = _
    rw [retryFrom_three]
    simp only [h0, create_tab_attempt, hs1, hs2]
    simp [hs1, hs2]
  · intro env resp h0 h1 h2 hs htab hne
    show retryFrom backoff _ 0 3 0 = _
    rw [retryFrom_three]
    have hemp : tab.isEmpty = false := by
      cases htabeq : tab.isEmpty
      · rfl
      · exact absurd ((String.isEmpty_iff tab).mp htabeq) hne
    simp only [h0, h1, h2, create_tab_attempt, hs, pyOrOpt, pyTruthy, htab, hemp]
    rw [Prod.mk.injEq]
    refine ⟨by simp, by simp; ring⟩
  · intro env h0 h1 h2
    show retryFrom backoff _ 0 3 0 = _
    rw [retryFrom_three]
    simp only [h0, h1, h2]
    rw [Prod.mk.injEq]
    exact ⟨rfl, by ring⟩
  · intro env resp h0 hs
    show retryFrom backoff _ 0 3 0 = _
    rw [retryFrom_three]
    simp only [h0, hs]
    simp [hs]

/-- Witness for C4 at concrete inputs: all-transient exhaustion of both
calls, an immediate 404 failure, and the two-connection-errors-then-success
scenario with `backoff = 1`. -/
theorem c4_retry_backoff_witness :
    (CamofoxClient.create_tab ⟨[]⟩ "oracle" "k" "http://example.test" none
        (fun _ => none) 1
      = (.error .camofoxRetriesExhausted, 1 * (2 ^ 0 + 2 ^ 1))) ∧
    (CamofoxClient.create_tab ⟨[]⟩ "oracle" "k" "http://example.test" none
        (fun _ => some ⟨404, none, none⟩) 1
      = (.error (.camofoxHttp 404), 0)) ∧
    (CamofoxClient.create_tab ⟨[]⟩ "oracle" "k" "http://example.test" none
        (fun a => if a = 2 then some ⟨200, some "t1", none⟩ else none) 1
      = (.ok ("t1", ⟨dictSet [] "k" "t1"⟩), 1 * (2 ^ 0 + 2 ^ 1))) ∧
    (CamofoxClient.get_snapshot "t1" "oracle" (fun _ => none) 1
      = (.error .camofoxRetriesExhausted, 1 * (2 ^ 0 + 2 ^ 1))) ∧
    (CamofoxClient.get_snapshot "t1" "oracle" (fun _ => some ⟨500, "err"⟩) 1
      = (.error (.camofoxHttp 500), 0)) := by
  have h := c4_retry_backoff ⟨[]⟩ "oracle" "k" "http://example.test" none 1 "t1"
  refine ⟨h.1 (fun _ => none) rfl rfl rfl,
    h.2.1 (fun _ => some ⟨404, none, none⟩) ⟨404, none, none⟩ rfl
      (by decide) (by decide),
    h.2.2.1 (fun a => if a = 2 then some ⟨200, some "t1", none⟩ else none)
      ⟨200, some "t1", none⟩ rfl rfl rfl rfl rfl (by decide),
    h.2.2.2.1 (fun _ => none) rfl rfl rfl,
    h.2.2.2.2 (fun _ => some ⟨500, "err"⟩) ⟨500, "err"⟩ rfl (by decide)⟩

/-!
## AntiDetectionSession and AntiDetectionPool (`camofox_anti_detection.py`)
-/

/-- The shared mutable collaborators a session works against, plus the
history variable `closedTabs`: every tab id on which a `close_tab` call has
been issued (instrumentation for stating the tab-handle invariant; not part
of the source state). -/
structure World where
  client : ClientState
  fpm : FingerprintManager
  rotator : Option ProxyRotator
  closedTabs : List String
deriving DecidableEq, Repr

/-- State of an `AntiDetectionSession` instance.  `sid` models Python object
identity (allocated from the pool's counter); it is not a source field. -/
structure SessionSt where
  session_key : String
  tab_id : Option String
  fingerprint : Option BrowserFingerprint
  proxy : Option String
  created_at : Nat
  last_activity : Nat
  sid : Nat
deriving DecidableEq, Repr

/-- `AntiDetectionSession._random_browser()` (the string-based one — unlike
`FingerprintManager._random_browser` it has no `.__value__` access). -/
def AD_random_browser (g : Rng) : String × Rng :=
  randChoice ["Chrome", "Firefox", "Safari"] "" g

/-- `AntiDetectionSession._random_os()`. -/
def AD_random_os (g : Rng) : String × Rng :=
  randChoice ["Win32", "MacIntel", "Linux x86_64"] "" g

/-- The four-timezone list hard-coded inside
`AntiDetectionSession.rotate_fingerprint`. -/
def ROTATE_TIMEZONES : List String :=
  ["America/New_York", "Europe/London", "Europe/Paris", "Asia/Tokyo"]

/-- Python `x or f()` where the fallback is a pure random helper. -/
def pyOrRand (x : Option String) (f : Rng → String × Rng) (g : Rng) :
    String × Rng :=
  match x with
  | some s => if s.isEmpty then f g else (s, g)
  | none => f g

/-- Tail of `AntiDetectionSession.start`: `create_tab` against the remote
daemon, then `self.tab_id = …` on success (on failure the exception is
logged and re-raised). -/
def SessionSt.startTab (s : SessionSt) (w : World) (url : String)
    (env : Nat → Option HttpResp) (backoff : ℚ) (g : Rng) :
    Except PyErr (String × SessionSt × World × Rng) :=
  match (CamofoxClient.create_tab w.client "oracle" s.session_key url s.proxy
      env backoff).1 with
  | .error e => .error e
  | .ok r =>
    .ok (r.1, { s with tab_id := some r.1 }, { w with client := r.2 }, g)

/-- `AntiDetectionSession.start(url, browser, os_type, timezone,
rotate_proxy)`: generate a fingerprint, optionally draw a proxy, create the
remote tab. -/
def SessionSt.start (s : SessionSt) (w : World)
    (url browser os_type timezone : String) (rotate_proxy : Bool) (now : Nat)
    (g : Rng) (env : Nat → Option HttpResp) (backoff : ℚ) :
    Except PyErr (String × SessionSt × World × Rng) :=
  let fr := w.fpm.generate_fingerprint s.session_key browser os_type timezone
    now g
  let s1 : SessionSt := { s with fingerprint := some fr.1 }
  let w1 : World := { w with fpm := fr.2.1 }
  match w1.rotator, rotate_proxy with
  | some rot, true =>
    match rot.get_next_proxy with
    | .error e => .error e
    | .ok pr =>
      SessionSt.startTab { s1 with proxy := pr.1 }
        { w1 with rotator := some pr.2 } url env backoff fr.2.2
  | some rot, false =>
    SessionSt.startTab s1 { w1 with rotator := some rot } url env backoff fr.2.2
  | none, _ => SessionSt.startTab s1 w1 url env backoff fr.2.2

/-- `AntiDetectionSession.get_snapshot()`: requires a (truthy) tab handle,
bumps `last_activity`, forwards to the client. -/
def SessionSt.get_snapshot (s : SessionSt) (w : World) (now : Nat)
    (env : Nat → Option SnapResp) (backoff : ℚ) :
    Except PyErr (String × SessionSt) :=
  match pyTruthy s.tab_id with
  | none => .error (.valueError "Session not started")
  | some tid =>
    let s1 : SessionSt := { s with last_activity := now }
    match (CamofoxClient.get_snapshot tid "oracle" env backoff).1 with
    | .error e => .error e
    | .ok snap => .ok (snap, s1)

/-- `AntiDetectionSession.rotate_fingerprint(new_browser, new_os,
rotate_proxy)`: requires a (truthy) tab handle; closes the current tab
*first*, regenerates the fingerprint (random browser/os/timezone when not
given) and optionally redraws the proxy.  `self.tab_id` is never reassigned:
the session keeps the handle of the tab it just closed, and no replacement
tab is created. -/
def SessionSt.rotate_fingerprint (s : SessionSt) (w : World)
    (new_browser new_os : Option String) (rotate_proxy : Bool) (now : Nat)
    (g : Rng) (d : DeleteOutcome) : Except PyErr (SessionSt × World × Rng) :=
  match pyTruthy s.tab_id with
  | none => .error (.valueError "Session not started")
  | some tid =>
    let w1 : World := { w with
      client := CamofoxClient.close_tab w.client tid d
      closedTabs := w.closedTabs ++ [tid] }
    let br := pyOrRand new_browser AD_random_browser g
    let osr := pyOrRand new_os AD_random_os br.2
    let tzr := randChoice ROTATE_TIMEZONES "" osr.2
    let fr := w1.fpm.generate_fingerprint s.session_key br.1 osr.1 tzr.1 now
      tzr.2
    let s1 : SessionSt := { s with fingerprint := some fr.1 }
    let w2 : World := { w1 with fpm := fr.2.1 }
    match w2.rotator, rotate_proxy with
    | some rot, true =>
      match rot.get_next_proxy with
      | .error e => .error e
      | .ok pr =>
        .ok ({ s1 with proxy := pr.1 }, { w2 with rotator := some pr.2 },
          fr.2.2)
    | some rot, false => .ok (s1, { w2 with rotator := some rot }, fr.2.2)
    | none, _ => .ok (s1, w2, fr.2.2)

/-- `AntiDetectionSession.close()`: best-effort close of the current tab, if
any.  `self.tab_id` is *not* cleared. -/
def SessionSt.close (s : SessionSt) (w : World) (d : DeleteOutcome) :
    SessionSt × World :=
  match pyTruthy s.tab_id with
  | some tid =>
    (s, { w with
          client := CamofoxClient.close_tab w.client tid d
          closedTabs := w.closedTabs ++ [tid] })
  | none => (s, w)

/-- State of an `AntiDetectionPool` instance.  `nextSid` is the allocator for
session object identities (models Python object creation; not a source
field). -/
structure PoolSt where
  pool_size : Nat
  rotation_interval : Nat
  sessions : List (String × SessionSt)
  last_rotation : Nat
  nextSid : Nat
deriving DecidableEq, Repr

/-- `AntiDetectionPool._should_rotate()`:
`(now() - self.last_rotation).total_seconds() > self.rotation_interval * 60`
(strict). -/
def PoolSt._should_rotate (p : PoolSt) (now : Nat) : Bool :=
  decide (now - p.last_rotation > p.rotation_interval * 60)

/-- `AntiDetectionSession.__init__(session_key, …)`: a fresh unstarted
session object (identity `sid` supplied by its allocator). -/
def freshSession (key : String) (now : Nat) (sid : Nat) : SessionSt :=
  { session_key := key, tab_id := none, fingerprint := none, proxy := none,
    created_at := now, last_activity := now, sid := sid }

/-- `AntiDetectionPool.acquire_session(session_key)`: for a registered key,
first rotate in place when `_should_rotate()`, then return the registered
instance; otherwise construct a fresh unstarted session, register and return
it. -/
def PoolSt.acquire_session (p : PoolSt) (w : World) (key : String) (now : Nat)
    (g : Rng) (d : DeleteOutcome) :
    Except PyErr (SessionSt × PoolSt × World × Rng) :=
  match dictGet p.sessions key with
  | some s =>
    if p._should_rotate now then
      match s.rotate_fingerprint w none none true now g d with
      | .error e => .error e
      | .ok r =>
        .ok (r.1, { p with sessions := dictSet p.sessions key r.1 }, r.2.1,
          r.2.2)
    else .ok (s, p, w, g)
  | none =>
    let s : SessionSt := freshSession key now p.nextSid
    .ok (s,
      { p with sessions := dictSet p.sessions key s, nextSid := p.nextSid + 1 },
      w, g)

/-- `AntiDetectionPool.release_session(session_key)`: close and delete when
present, no-op otherwise. -/
def PoolSt.release_session (p : PoolSt) (w : World) (key : String)
    (d : DeleteOutcome) : PoolSt × World :=
  match dictGet p.sessions key with
  | some s =>
    ({ p with sessions := dictErase p.sessions key }, (s.close w d).2)
  | none => (p, w)

/-- Allocator invariant: every registered session's identity was allocated
below the pool's counter. -/
def PoolSt.sidInv (p : PoolSt) : Prop :=
  ∀ kv ∈ p.sessions, kv.2.sid < p.nextSid

lemma dictGet_dictErase {β : Type} (d : List (String × β)) (k : String) :
    dictGet (dictErase d k) k = none := by
  induction d with
  | nil => rfl
  | cons hd tl ih =>
    obtain ⟨a, b⟩ := hd
    by_cases hak : a = k
    · simpa [dictErase, List.filter_cons, hak] using ih
    · simpa [dictErase, List.filter_cons, hak, dictGet] using ih

lemma dictGet_dictSet_self {β : Type} (d : List (String × β)) (k : String)
    (v : β) : dictGet (dictSet d k v) k = some v := by
  induction d with
  | nil => simp [dictSet, dictGet]
  | cons hd tl ih =>
    obtain ⟨a, b⟩ := hd
    by_cases hak : a = k
    · simp [dictSet, dictGet, hak]
    · simp [dictSet, dictGet, hak, ih]

lemma dictGet_mem {β : Type} (d : List (String × β)) (k : String) (v : β)
    (h : dictGet d k = some v) : (k, v) ∈ d := by
  induction d with
  | nil => simp [dictGet] at h
  | cons hd tl ih =>
    obtain ⟨a, b⟩ := hd
    rw [dictGet] at h
    by_cases hak : a = k
    · rw [if_pos hak] at h
      cases h
      subst hak
      exact List.mem_cons_self _ _
    · rw [if_neg hak] at h
      exact List.mem_cons_of_mem _ (ih h)

/-- The C1 scenario, first step: a fresh unstarted session is started against
a remote that answers every `create_tab` attempt with 201-equivalent status
200 and tab id `"t1"`. -/
def c1_run1 : Except PyErr (String × SessionSt × World × Rng) :=
  SessionSt.start ⟨"s", none, none, none, 0, 0, 0⟩ ⟨⟨[]⟩, ⟨[], []⟩, none, []⟩
    "https://example.test" "Chrome" "Win32" "America/New_York" true 0 []
    (fun _ => some ⟨200, some "t1", none⟩) 1

/-- The C1 scenario, second step: `rotate_fingerprint()` on the started
session (the remote delete succeeds with 200). -/
def c1_run2 : Except PyErr (SessionSt × World × Rng) :=
  match c1_run1 with
  | .error e => .error e
  | .ok r =>
    SessionSt.rotate_fingerprint r.2.1 r.2.2.1 none none true 5 r.2.2.2
      (.status 200)

/-- Claim C1: the spec requires the tab handle to be present iff the session
is started and not yet closed, never referring to a tab on which `close_tab`
has been issued — `rotate_fingerprint` must create the replacement tab before
closing the old one, and `close()` must clear the handle.  The code violates
all of it (the defect §9 of the spec acknowledges): after `start` hands out
tab `"t1"`, `rotate_fingerprint()` issues `close_tab("t1")`, creates no
replacement tab and keeps `tab_id = "t1"`, so the session points at a closed
tab; and a subsequent `close()` still leaves `tab_id = "t1"` in place. -/
theorem c1_rotation_leaves_closed_tab_handle :
    ∃ (s2 : SessionSt) (w2 : World) (g2 : Rng),
      c1_run2 = .ok (s2, w2, g2) ∧
      s2.tab_id = some "t1" ∧ "t1" ∈ w2.closedTabs ∧
      (s2.close w2 (.status 200)).1.tab_id = some "t1" := by
  refine ⟨_, _, _, rfl, rfl, ?_, rfl⟩
  decide

/-- The pool of the C9/C10 scenarios before any acquire: capacity 10,
rotation interval 30 minutes, constructed at time 0. -/
def poolScenario0 : PoolSt := ⟨10, 30, [], 0, 0⟩

/-- The shared collaborators of the C9/C10 scenarios: no proxies configured,
empty fingerprint store, no tabs. -/
def worldScenario0 : World := ⟨⟨[]⟩, ⟨[], []⟩, none, []⟩

/-- Counterexample to claim C9: `acquire_session(key)` twice with no
intervening release is claimed to return the same `Session` instance.  Here
the first acquire (at time 0) registers an unstarted session; the second
acquire of the same key at time 1801 s — once the 30-minute rotation interval
has elapsed — attempts an in-place `rotate_fingerprint()` on the unstarted
session and raises `ValueError("Session not started")` instead of returning
it. -/
theorem c9_counterexample_second_acquire_raises :
    (match PoolSt.acquire_session poolScenario0 worldScenario0 "k" 0 []
        (.status 200) with
     | .error e => .error e
     | .ok r => PoolSt.acquire_session r.2.1 r.2.2.1 "k" 1801 r.2.2.2
        (.status 200)
     : Except PyErr (SessionSt × PoolSt × World × Rng))
      = .error (.valueError "Session not started") := by
  rfl

/-- Claim C9 (amended): `acquire_session(key)` on a registered key returns
that same registered instance — with the pool, collaborators and rng left
untouched — provided the rotation cadence is not due (otherwise it first
attempts an in-place rotation, which raises on a never-started session, as
the counterexample shows); `release_session` of an absent key is a no-op; and
after a release, the next acquire of that key returns a freshly constructed,
unstarted session (no tab handle, no fingerprint, a new object identity),
registered under the key. -/
theorem c9_pool_acquire_release_semantics (p : PoolSt) (w : World)
    (key : String) (now : Nat) (g : Rng) (d : DeleteOutcome) :
    (∀ s, dictGet p.sessions key = some s → p._should_rotate now = false →
      PoolSt.acquire_session p w key now g d = .ok (s, p, w, g)) ∧
    (dictGet p.sessions key = none →
      PoolSt.release_session p w key d = (p, w)) ∧
    (∀ s, dictGet p.sessions key = some s → p.sidInv →
      ∀ (now2 : Nat) (g2 : Rng) (d2 : DeleteOutcome),
        ∃ (s2 : SessionSt) (p2 : PoolSt) (w2 : World),
          PoolSt.acquire_session (PoolSt.release_session p w key d).1
            (PoolSt.release_session p w key d).2 key now2 g2 d2
            = .ok (s2, p2, w2, g2) ∧
          s2.tab_id = none ∧ s2.fingerprint = none ∧ s2.sid ≠ s.sid ∧
          dictGet p2.sessions key = some s2) := by
  refine ⟨?_, ?_, ?_⟩
  · intro s hreg hrot
    simp [PoolSt.acquire_session, hreg, hrot]
  · intro hnone
    simp [PoolSt.release_session, hnone]
  · intro s hreg hinv now2 g2 d2
    have herase : dictGet (dictErase p.sessions key) key = none :=
      dictGet_dictErase p.sessions key
    have hrel : PoolSt.release_session p w key d
        = ({ p with sessions := dictErase p.sessions key }, (s.close w d).2) := by
      simp [PoolSt.release_session, hreg]
    have hlt : s.sid < p.nextSid := hinv (key, s) (dictGet_mem p.sessions key s hreg)
    refine ⟨freshSession key now2 p.nextSid,
      { p with
        sessions := dictSet (dictErase p.sessions key) key
          (freshSession key now2 p.nextSid),
        nextSid := p.nextSid + 1 },
      (s.close w d).2, ?_, rfl, rfl, ?_, ?_⟩
    · rw [hrel]
      simp only [PoolSt.acquire_session, herase]
    · show p.nextSid ≠ s.sid
      omega
    · show dictGet (dictSet (dictErase p.sessions key) key _) key = _
      rw [dictGet_dictSet_self]

/-- A pool state holding one registered, never-started session `"k"`
(identity 0), as produced by one `acquire_session` on `poolScenario0`. -/
def poolScenario1 : PoolSt := ⟨10, 30, [("k", freshSession "k" 0 0)], 0, 1⟩

/-- Witness for C9 (amended) on `poolScenario1`: a second acquire inside the
rotation interval returns the registered instance unchanged, and a
release-then-acquire yields a fresh unstarted session with a new identity. -/
theorem c9_pool_acquire_release_semantics_witness :
    (PoolSt.acquire_session poolScenario1 worldScenario0 "k" 100 []
        (.status 200)
      = .ok (freshSession "k" 0 0, poolScenario1, worldScenario0, [])) ∧
    (∃ (s2 : SessionSt) (p2 : PoolSt) (w2 : World),
      PoolSt.acquire_session
          (PoolSt.release_session poolScenario1 worldScenario0 "k"
            (.status 200)).1
          (PoolSt.release_session poolScenario1 worldScenario0 "k"
            (.status 200)).2 "k" 7 [] (.status 200)
        = .ok (s2, p2, w2, []) ∧
      s2.tab_id = none ∧ s2.fingerprint = none ∧
      s2.sid ≠ (freshSession "k" 0 0).sid ∧
      dictGet p2.sessions "k" = some s2) := by
  have h := c9_pool_acquire_release_semantics poolScenario1 worldScenario0 "k"
    100 [] (.status 200)
  exact ⟨h.1 (freshSession "k" 0 0) (by decide) (by decide),
    h.2.2 (freshSession "k" 0 0) (by decide)
      (by unfold PoolSt.sidInv; decide) 7 [] (.status 200)⟩

/-- Claim C10: once the rotation interval has strictly elapsed since pool
construction, `acquire_session` of a registered key attempts an in-place
`rotate_fingerprint()` before returning; on a never-started session that
attempt raises `ValueError("Session not started")`.  Moreover,
`last_rotation` is never updated by `acquire_session` or `release_session`,
and `_should_rotate` is monotone in time — so once the interval has elapsed,
every subsequent acquire of an existing key attempts rotation. -/
theorem c10_rotation_cadence_stale_clock (p : PoolSt) (w : World)
    (key : String) (now : Nat) (g : Rng) (d : DeleteOutcome) :
    (∀ s, dictGet p.sessions key = some s → p._should_rotate now = true →
      PoolSt.acquire_session p w key now g d
        = match s.rotate_fingerprint w none none true now g d with
          | .error e => .error e
          | .ok r =>
            .ok (r.1, { p with sessions := dictSet p.sessions key r.1 },
              r.2.1, r.2.2)) ∧
    (∀ s, dictGet p.sessions key = some s → p._should_rotate now = true →
      s.tab_id = none →
      PoolSt.acquire_session p w key now g d
        = .error (.valueError "Session not started")) ∧
    (∀ s2 p2 w2 g2,
      PoolSt.acquire_session p w key now g d = .ok (s2, p2, w2, g2) →
      p2.last_rotation = p.last_rotation) ∧
    ((PoolSt.release_session p w key d).1.last_rotation = p.last_rotation) ∧
    (∀ t, now ≤ t → p._should_rotate now = true →
      p._should_rotate t = true) := by
  refine ⟨?_, ?_, ?_, ?_, ?_⟩
  · intro s hreg hrot
    simp [PoolSt.acquire_session, hreg, hrot]
  · intro s hreg hrot hun
    simp [PoolSt.acquire_session, hreg, hrot, SessionSt.rotate_fingerprint,
      hun, pyTruthy]
  · intro s2 p2 w2 g2 h
    simp only [PoolSt.acquire_session] at h
    cases hreg : dictGet p.sessions key with
    | some s =>
      simp only [hreg] at h
      cases hrot : p._should_rotate now with
      | true =>
        simp only [hrot, if_true] at h
        cases hres : s.rotate_fingerprint w none none true now g d with
        | error e =>
          rw [hres] at h
          simp at h
        | ok r =>
          rw [hres] at h
          simp only [Except.ok.injEq, Prod.mk.injEq] at h
          obtain ⟨h1, h2, h3, h4⟩ := h
          subst h2
          rfl
      | false =>
        simp only [hrot, Bool.false_eq_true, if_false] at h
        simp only [Except.ok.injEq, Prod.mk.injEq] at h
        obtain ⟨h1, h2, h3, h4⟩ := h
        subst h2
        rfl
    | none =>
      simp only [hreg] at h
      simp only [Except.ok.injEq, Prod.mk.injEq] at h
      obtain ⟨h1, h2, h3, h4⟩ := h
      subst h2
      rfl
  · cases hreg : dictGet p.sessions key with
    | some s => simp [PoolSt.release_session, hreg]
    | none => simp [PoolSt.release_session, hreg]
  · intro t hle hdue
    simp only [PoolSt._should_rotate, decide_eq_true_eq] at hdue ⊢
    omega

/-- Witness for C10 on `poolScenario1` at time 1801 s (interval 30 min =
1800 s, strictly elapsed): the acquire raises the not-started error. -/
theorem c10_rotation_cadence_stale_clock_witness :
    PoolSt.acquire_session poolScenario1 worldScenario0 "k" 1801 []
        (.status 200)
      = .error (.valueError "Session not started") :=
  (c10_rotation_cadence_stale_clock poolScenario1 worldScenario0 "k" 1801 []
      (.status 200)).2.1 (freshSession "k" 0 0) (by decide) (by decide) rfl
